import Mathlib

/-!
# Verification of the mcp-ollama server against its specification

Shallow embedding of the repository's TypeScript sources:

* `src/tools.ts` — two observed variants of this file ship in the repository:
  the strict-validation variant (called `v0` below; it trims the search query,
  coerces scheme-less URLs, validates upstream response bodies, and caps
  `max_results` at 10) and the pass-through variant (called `v1` below; no
  query trim, `z.string().url()` with no coercion, no response validation,
  `max_results` capped at 20).
* `src/http-server.ts` — the Fastify HTTP transport: bearer-token auth gate,
  session map, and the POST/GET/DELETE `/mcp` handlers, modelled as an
  executable step function over an explicit server state.

JavaScript numbers appearing in payloads are modelled as rationals (`ℚ`), so
that non-integer inputs are expressible; `undefined`/absent fields are
`Option`; thrown exceptions are `Except` results.  `new URL(...)` validity is
a parameter (`isValidURL : String → Bool`) of the payload parsers: theorems
about the coercion pipeline hold for every URL validity predicate, and closed
statements instantiate it with a small concrete checker.
-/

namespace McpOllama

/-! ## tools.ts: constants (part_000 lines 5-10, part_001 lines 5-9) -/

/-- Constant `MAX_RESULTS_DEFAULT = 5` (both variants). -/
def MAX_RESULTS_DEFAULT : Int := 5

/-- Constant `MAX_RESULTS_LIMIT = 10` (part_000 line 9, strict variant). -/
def MAX_RESULTS_LIMIT_v0 : Int := 10

/-- Constant `MAX_RESULTS_LIMIT = 20` (part_001 line 9, pass-through variant). -/
def MAX_RESULTS_LIMIT_v1 : Int := 20

/-! JavaScript string primitives, modelled structurally on the character
list so that they evaluate inside the kernel. -/

/-- Whether the first list starts with the second. -/
def charsStartWith : List Char → List Char → Bool
  | _, [] => true
  | [], _ :: _ => false
  | c :: cs, p :: ps => c == p && charsStartWith cs ps

/-- The JavaScript test `s.startsWith(p)`. -/
def strStartsWith (s p : String) : Bool :=
  charsStartWith s.data p.data

/-- The JavaScript operation `s.slice(n)`: drop the first `n` characters. -/
def strDrop (s : String) (n : Nat) : String :=
  ⟨s.data.drop n⟩

/-- Character-wise lower-casing. -/
def lowerStr (s : String) : String :=
  ⟨s.data.map Char.toLower⟩

/-- The JavaScript operation `s.trim()`: strip leading and trailing
whitespace. -/
def jsTrim (s : String) : String :=
  ⟨((s.data.dropWhile Char.isWhitespace).reverse.dropWhile
      Char.isWhitespace).reverse⟩

/-- Regex `URL_PROTOCOL_REGEX = /^https?:\/\//i` (part_000 line 10): the string
starts, case-insensitively, with `http://` or `https://`. -/
def hasHttpScheme (s : String) : Bool :=
  strStartsWith (lowerStr s) "http://" || strStartsWith (lowerStr s) "https://"

/-! ## tools.ts: web_search payload schema -/

/-- The raw argument object handed to `webSearch`.  `query` is a string field,
`max_results` an optional JavaScript number (a rational, so that the
non-integer case is representable). -/
structure WebSearchInput where
  query : String
  max_results : Option ℚ
deriving Repr, DecidableEq

/-- The parsed payload that is sent upstream after validation. -/
structure WebSearchPayload where
  query : String
  max_results : Int
deriving Repr, DecidableEq

/-- Schema `z.number().int(...).min(1,...).max(limit,...).default(5)` for the
`max_results` field (part_000 lines 16-21, part_001 lines 15-20); `limit` is
the variant's `MAX_RESULTS_LIMIT`.  An absent field takes the default. -/
def parseMaxResultsField (limit : Int) : Option ℚ → Except String Int
  | none => .ok MAX_RESULTS_DEFAULT
  | some q =>
    if q.den ≠ 1 then .error "Max results must be an integer."
    else if q.num < 1 then .error "Max results must be at least 1."
    else if limit < q.num then .error "Max results cannot exceed the limit."
    else .ok q.num

/-- Schema `webSearchPayloadSchema` of the strict variant (part_000 lines 14-22):
`query: z.string().trim().min(1, ...)` — the query is trimmed and the trimmed
value must be non-empty (and is what the payload carries). -/
def webSearchParse_v0 (inp : WebSearchInput) : Except String WebSearchPayload :=
  if (jsTrim inp.query).length < 1 then .error "Query must not be empty."
  else
    match parseMaxResultsField MAX_RESULTS_LIMIT_v0 inp.max_results with
    | .error e => .error e
    | .ok m => .ok ⟨jsTrim inp.query, m⟩

/-- Schema `webSearchPayloadSchema` of the pass-through variant (part_001 lines
13-21): `query: z.string().min(1, ...)` — no trim before the length check. -/
def webSearchParse_v1 (inp : WebSearchInput) : Except String WebSearchPayload :=
  if inp.query.length < 1 then .error "Query must not be empty."
  else
    match parseMaxResultsField MAX_RESULTS_LIMIT_v1 inp.max_results with
    | .error e => .error e
    | .ok m => .ok ⟨inp.query, m⟩

/-! ## tools.ts: web_fetch payload schema -/

/-- Schema `webFetchPayloadSchema` of the strict variant (part_000 lines 34-48):
`z.string().min(1).transform(trim).transform(prefix https:// unless the value
is truthy and matches the protocol regex).refine(new URL succeeds)`.
`isValidURL` stands for `new URL(value)` succeeding. -/
def webFetchParse_v0 (isValidURL : String → Bool) (url : String) :
    Except String String :=
  if url.length < 1 then .error "URL must not be empty."
  else
    let t := jsTrim url
    let c := if t ≠ "" && hasHttpScheme t then t else "https://" ++ t
    if isValidURL c then .ok c else .error "URL must be a valid URL."

/-- Schema `webFetchPayloadSchema` of the pass-through variant (part_001 lines
23-25): `url: z.string().url(...)` — the raw string is validated as a URL with
no trimming and no scheme coercion. -/
def webFetchParse_v1 (isValidURL : String → Bool) (url : String) :
    Except String String :=
  if isValidURL url then .ok url else .error "URL must be a valid URL."

/-- A concrete model of WHATWG `new URL` validity for `http(s)` URLs, used to
instantiate `isValidURL` in closed statements: the string must carry an
`http://` or `https://` scheme (a scheme-less string always throws in
`new URL`) followed by a non-empty remainder. -/
def isValidHttpUrl (s : String) : Bool :=
  (strStartsWith (lowerStr s) "http://" && 7 < s.length) ||
  (strStartsWith (lowerStr s) "https://" && 8 < s.length)

/-! ## tools.ts: response schemas (strict variant only, part_000 lines 24-63) -/

/-- One entry of the upstream search response body, before validation: each
field is `some` string when present with string type, else `none`. -/
structure SearchResultData where
  title : Option String
  url : Option String
  content : Option String
deriving Repr, DecidableEq

/-- A validated search result (`webSearchResultSchema`, part_000 lines 24-28). -/
structure WebSearchResult where
  title : String
  url : String
  content : String
deriving Repr, DecidableEq

/-- Schema `webSearchResultSchema` (part_000 lines 24-28): all three fields required,
strings, non-empty. -/
def parseSearchResult (d : SearchResultData) : Except String WebSearchResult :=
  match d.title, d.url, d.content with
  | some t, some u, some c =>
    if t.length < 1 then .error "Result title must not be empty."
    else if u.length < 1 then .error "Result URL must not be empty."
    else if c.length < 1 then .error "Result content must not be empty."
    else .ok ⟨t, u, c⟩
  | _, _, _ => .error "Required"

/-- The upstream search response body before validation. -/
structure SearchRespData where
  results : Option (List SearchResultData)
deriving Repr, DecidableEq

/-- Schema `webSearchResponseSchema` (part_000 lines 30-32): an object with a
`results` array, each element validated by `webSearchResultSchema`. -/
def webSearchRespParse_v0 (d : SearchRespData) :
    Except String (List WebSearchResult) :=
  match d.results with
  | none => .error "Required"
  | some rs => rs.mapM parseSearchResult

/-- The `title` field of an upstream fetch response: a string, `null`,
or absent/`undefined`. -/
inductive JStrField where
  | absent
  | null
  | str (s : String)
deriving Repr, DecidableEq

/-- The `links` field of an upstream fetch response: an array of strings,
`null`, or absent/`undefined`. -/
inductive JArrField where
  | absent
  | null
  | arr (xs : List String)
deriving Repr, DecidableEq

/-- The upstream fetch response body before validation.  `content` is `some`
when present with string type, else `none`. -/
structure FetchRespData where
  title : JStrField
  content : Option String
  links : JArrField
deriving Repr, DecidableEq

/-- A validated fetch response (`webFetchResponseSchema` output). -/
structure WebFetchResponse where
  title : String
  content : String
  links : List String
deriving Repr, DecidableEq

/-- Schema `webFetchResponseSchema` (part_000 lines 50-63): `title` is
`union([string, null, undefined])` transformed to the trimmed string when a
string and `''` otherwise; `content` is a required non-empty string; `links`
is `union([array of non-empty strings, null, undefined])` transformed to the
array when an array and `[]` otherwise. -/
def webFetchRespParse_v0 (d : FetchRespData) : Except String WebFetchResponse :=
  let titleOut := match d.title with
    | .str s => jsTrim s
    | _ => ""
  match d.content with
  | none => .error "Required"
  | some c =>
    if c.length < 1 then .error "Response content must not be empty."
    else
      match d.links with
      | .arr xs =>
        if xs.all (fun x => 1 ≤ x.length) then .ok ⟨titleOut, c, xs⟩
        else .error "Each link must not be empty."
      | _ => .ok ⟨titleOut, c, []⟩

/-! ## tools.ts: error normalization (part_000 lines 84-109, part_001 lines
46-71 — identical in both variants) -/

/-- A thrown `AxiosError`, as far as `formatAxiosError` inspects it:
`response` (status plus body, the body already in the string form produced by
the `typeof data === 'string' ? data : JSON.stringify(data)` branch),
`request` presence, and the optional `message`. -/
structure AxiosErrorM where
  response : Option (Int × String)
  hasRequest : Bool
  message : Option String
deriving Repr, DecidableEq

/-- Error class `OllamaApiError` (part_000 lines 84-92): a message and an optional HTTP
status. -/
structure OllamaApiError where
  message : String
  status : Option Int
deriving Repr, DecidableEq

/-- Function `formatAxiosError` (part_000 lines 94-109, part_001 lines 56-71). -/
def formatAxiosError (e : AxiosErrorM) : OllamaApiError :=
  match e.response with
  | some (status, data) =>
    ⟨"Ollama API responded with status " ++ toString status ++ ": " ++ data,
      some status⟩
  | none =>
    if e.hasRequest then ⟨"No response received from Ollama API.", none⟩
    else ⟨e.message.getD "Unknown Axios error.", none⟩

/-! ## tools.ts: postToOllama and the exported tools -/

/-- What one `axiosClient.post` attempt produces: a response body, a thrown
`AxiosError`, or some other thrown error (`some msg` when it is an `Error`
with that message, `none` otherwise). -/
inductive UpstreamResult (γ : Type) where
  | success (data : γ)
  | axiosErr (e : AxiosErrorM)
  | otherErr (msg : Option String)
deriving Repr, DecidableEq

/-- What a `postToOllama` call throws: the raw `ZodError` of the payload
parse (thrown outside the `try` block), or an `OllamaApiError`. -/
inductive ThrownError where
  | zod (msg : String)
  | ollama (e : OllamaApiError)
deriving Repr, DecidableEq

/-- Function `postToOllama` of the strict variant (part_000 lines 111-133).  The
upstream API is the oracle `upstream`; the second component of the result
counts the outbound POST attempts made.  The payload parse runs before the
`try` block (a failure propagates as a raw `ZodError` and no POST happens);
inside the `try`, a thrown `AxiosError` is normalized by `formatAxiosError`,
a response-schema `ZodError` (not an `AxiosError`) is wrapped into an
`OllamaApiError` carrying its message, and any other error is wrapped with
its message or the fixed fallback. -/
def postToOllama_v0 {α β γ δ : Type}
    (payloadSchema : α → Except String β)
    (responseSchema : γ → Except String δ)
    (payload : α) (upstream : β → UpstreamResult γ) :
    Except ThrownError δ × Nat :=
  match payloadSchema payload with
  | .error m => (.error (.zod m), 0)
  | .ok parsedPayload =>
    match upstream parsedPayload with
    | .success data =>
      match responseSchema data with
      | .ok out => (.ok out, 1)
      | .error m => (.error (.ollama ⟨m, none⟩), 1)
    | .axiosErr e => (.error (.ollama (formatAxiosError e)), 1)
    | .otherErr msg =>
      (.error (.ollama ⟨msg.getD "Unknown error while calling Ollama API.", none⟩), 1)

/-- Function `postToOllama` of the pass-through variant (part_001 lines 73-91): same
shape, but the response body is returned as-is, unvalidated. -/
def postToOllama_v1 {α β γ : Type}
    (payloadSchema : α → Except String β)
    (payload : α) (upstream : β → UpstreamResult γ) :
    Except ThrownError γ × Nat :=
  match payloadSchema payload with
  | .error m => (.error (.zod m), 0)
  | .ok parsedPayload =>
    match upstream parsedPayload with
    | .success data => (.ok data, 1)
    | .axiosErr e => (.error (.ollama (formatAxiosError e)), 1)
    | .otherErr msg =>
      (.error (.ollama ⟨msg.getD "Unknown error while calling Ollama API.", none⟩), 1)

/-- Function `webSearch` of the strict variant (part_000 lines 135-142). -/
def webSearch_v0 (payload : WebSearchInput)
    (upstream : WebSearchPayload → UpstreamResult SearchRespData) :
    Except ThrownError (List WebSearchResult) × Nat :=
  postToOllama_v0 webSearchParse_v0 webSearchRespParse_v0 payload upstream

/-- Function `webFetch` of the strict variant (part_000 lines 144-151). -/
def webFetch_v0 (isValidURL : String → Bool) (url : String)
    (upstream : String → UpstreamResult FetchRespData) :
    Except ThrownError WebFetchResponse × Nat :=
  postToOllama_v0 (webFetchParse_v0 isValidURL) webFetchRespParse_v0 url upstream

/-- Function `webSearch` of the pass-through variant (part_001 lines 93-99). -/
def webSearch_v1 {γ : Type} (payload : WebSearchInput)
    (upstream : WebSearchPayload → UpstreamResult γ) :
    Except ThrownError γ × Nat :=
  postToOllama_v1 webSearchParse_v1 payload upstream

/-- Function `webFetch` of the pass-through variant (part_001 lines 101-107). -/
def webFetch_v1 {γ : Type} (isValidURL : String → Bool) (url : String)
    (upstream : String → UpstreamResult γ) :
    Except ThrownError γ × Nat :=
  postToOllama_v1 (webFetchParse_v1 isValidURL) url upstream

/-! ## http-server.ts: auth gate, session map and `/mcp` handlers

Session identifiers are modelled as naturals drawn from a fresh counter
(`nextSessionId`), capturing that `randomUUID()` never re-issues an
identifier; transports are modelled by distinct natural handles.  The
`transports` record (`http-server.ts` line 16) is an association list keyed by
session identifier.  `closedIds` is ghost history recording every session
identifier whose transport was closed; the code does not store it, it only
serves to state the never-resolves-again invariant. -/

/-- Process configuration read at startup (`http-server.ts` lines 12-13):
`MCP_AUTH_TOKEN` and `MCP_AUTH_ENABLED`. -/
structure ServerConfig where
  authEnabled : Bool
  authToken : String
deriving Repr, DecidableEq

/-- An error reply produced by the auth gate or the session routing: HTTP
status, RPC error code and message, and the reply's `id` field (always
`null`, i.e. `none`, in the code). -/
structure RpcErrorReply where
  status : Nat
  code : Int
  message : String
  id : Option String
deriving Repr, DecidableEq

/-- HTTP method of a request on `/mcp`. -/
inductive HttpMethod where
  | post
  | get
  | delete
deriving Repr, DecidableEq

/-- One inbound HTTP request, as far as the handlers inspect it: the method,
the `authorization` header, the `mcp-session-id` header, and whether the body
satisfies `isInitializeRequest`. -/
structure HttpRequest where
  method : HttpMethod
  authHeader : Option String
  sessionId : Option Nat
  isInitReq : Bool
deriving Repr, DecidableEq

/-- The mutable server state: the live `transports` map (session id ↦
transport handle), the fresh-identifier and fresh-transport counters, and the
ghost list of closed session identifiers. -/
structure ServerState where
  transports : List (Nat × Nat)
  nextSessionId : Nat
  nextTransport : Nat
  closedIds : List Nat
deriving Repr, DecidableEq

/-- The state at process start: an empty session map. -/
def initialServerState : ServerState := ⟨[], 0, 0, []⟩

/-- The `transports[sessionId]` lookup on the association list. -/
def lookupTransport (m : List (Nat × Nat)) (id : Nat) : Option Nat :=
  (m.find? (fun p => p.1 = id)).map (fun p => p.2)

/-- The `onRequest` authentication hook (`http-server.ts` lines 22-44):
`none` when the request passes, otherwise the reply it sends.  When auth is
disabled it returns immediately; a missing header or one not starting with
`Bearer ` gets 401 with code -32001; a mismatched token (the header after the 7-charac-
ter `Bearer ` prefix) gets 403 with code -32002. -/
def authGate (cfg : ServerConfig) (authHeader : Option String) :
    Option RpcErrorReply :=
  if !cfg.authEnabled then none
  else
    match authHeader with
    | none => some ⟨401, -32001, "Unauthorized: Missing Bearer token", none⟩
    | some h =>
      if !strStartsWith h "Bearer " then
        some ⟨401, -32001, "Unauthorized: Missing Bearer token", none⟩
      else if strDrop h 7 ≠ cfg.authToken then
        some ⟨403, -32002, "Forbidden: Invalid token", none⟩
      else none

/-- What handling one request does, beyond the state change: an error reply,
a forward of the request to an existing live transport (`handleRequest`), or
the creation of a new session (the initialize branch). -/
inductive HandleOutcome where
  | rejected (r : RpcErrorReply)
  | forwarded (transport : Nat)
  | created (sessionId transport : Nat)
deriving Repr, DecidableEq

/-- Route `fastify.post('/mcp')` (`http-server.ts` lines 47-96) after the auth
hook: reuse the transport when the `mcp-session-id` header resolves; create a
new transport with a fresh identifier when there is no session header and the
body is an initialize request (`onsessioninitialized` inserts it into the
map); otherwise reply 400 with code -32000 and leave the state unchanged. -/
def handlePost (s : ServerState) (req : HttpRequest) :
    HandleOutcome × ServerState :=
  match req.sessionId with
  | some id =>
    match lookupTransport s.transports id with
    | some t => (.forwarded t, s)
    | none =>
      (.rejected ⟨400, -32000, "Bad Request: No valid session ID provided", none⟩, s)
  | none =>
    if req.isInitReq then
      (.created s.nextSessionId s.nextTransport,
        { transports := (s.nextSessionId, s.nextTransport) :: s.transports
          nextSessionId := s.nextSessionId + 1
          nextTransport := s.nextTransport + 1
          closedIds := s.closedIds })
    else
      (.rejected ⟨400, -32000, "Bad Request: No valid session ID provided", none⟩, s)

/-- Route `fastify.get('/mcp')` (`http-server.ts` lines 99-125) after the auth
hook: 400 with code -32000 when the session header is missing or unknown, else the
request is forwarded to the resolved transport (opening the SSE stream, no
state change). -/
def handleGet (s : ServerState) (req : HttpRequest) :
    HandleOutcome × ServerState :=
  match req.sessionId with
  | none => (.rejected ⟨400, -32000, "Invalid or missing session ID", none⟩, s)
  | some id =>
    match lookupTransport s.transports id with
    | none => (.rejected ⟨400, -32000, "Invalid or missing session ID", none⟩, s)
    | some t => (.forwarded t, s)

/-- Route `fastify.delete('/mcp')` (`http-server.ts` lines 128-154) after the auth
hook: 400 with code -32000 when the session header is missing or unknown; otherwise the
transport handles the termination request, which closes it — its `onclose`
callback (lines 65-70) deletes the identifier from `transports`.  The ghost
`closedIds` records the closure. -/
def handleDelete (s : ServerState) (req : HttpRequest) :
    HandleOutcome × ServerState :=
  match req.sessionId with
  | none => (.rejected ⟨400, -32000, "Invalid or missing session ID", none⟩, s)
  | some id =>
    match lookupTransport s.transports id with
    | none => (.rejected ⟨400, -32000, "Invalid or missing session ID", none⟩, s)
    | some t =>
      (.forwarded t,
        { transports := s.transports.filter (fun p => p.1 ≠ id)
          nextSessionId := s.nextSessionId
          nextTransport := s.nextTransport
          closedIds := id :: s.closedIds })

/-- The full request pipeline: the auth gate runs first (`onRequest` fires
before any route handler and replying there ends the request), then the
method's route handler. -/
def handleRequest (cfg : ServerConfig) (s : ServerState) (req : HttpRequest) :
    HandleOutcome × ServerState :=
  match authGate cfg req.authHeader with
  | some r => (.rejected r, s)
  | none =>
    match req.method with
    | .post => handlePost s req
    | .get => handleGet s req
    | .delete => handleDelete s req

/-- Callback `transport.onclose` firing for the transport of session `id` outside an
explicit DELETE (e.g. the client disconnects): `delete transports[id]`
(`http-server.ts` lines 65-70); a no-op when the identifier is not live. -/
def closeTransport (s : ServerState) (id : Nat) : ServerState :=
  match lookupTransport s.transports id with
  | none => s
  | some _ =>
    { transports := s.transports.filter (fun p => p.1 ≠ id)
      nextSessionId := s.nextSessionId
      nextTransport := s.nextTransport
      closedIds := id :: s.closedIds }

/-- An event the session state reacts to: an inbound HTTP request, or a
transport-level closure. -/
inductive ServerEvent where
  | request (req : HttpRequest)
  | transportClosed (id : Nat)
deriving Repr, DecidableEq

/-- One step of the server state. -/
def stepServer (cfg : ServerConfig) (s : ServerState) : ServerEvent → ServerState
  | .request req => (handleRequest cfg s req).2
  | .transportClosed id => closeTransport s id

/-- The state after a sequence of events. -/
def runServer (cfg : ServerConfig) (s : ServerState) (evts : List ServerEvent) :
    ServerState :=
  evts.foldl (stepServer cfg) s

/-- The session-map invariant: live identifiers are distinct (each maps to at
most one transport), no closed identifier is live, and every identifier ever
used is below the fresh counter. -/
def SessionInv (s : ServerState) : Prop :=
  (s.transports.map Prod.fst).Nodup ∧
  (∀ id ∈ s.closedIds, lookupTransport s.transports id = none) ∧
  (∀ id ∈ s.transports.map Prod.fst, id < s.nextSessionId) ∧
  (∀ id ∈ s.closedIds, id < s.nextSessionId)

/-! ## Helper lemmas -/

/-- A `max_results` value that is non-integer, below 1 or above the limit is
rejected by the field schema. -/
theorem parseMaxResultsField_bad (limit : Int) (q : ℚ)
    (h : q.den ≠ 1 ∨ q.num < 1 ∨ limit < q.num) :
    ∃ m, parseMaxResultsField limit (some q) = .error m := by
  unfold parseMaxResultsField
  by_cases h1 : q.den = 1
  · by_cases h2 : q.num < 1
    · exact ⟨"Max results must be at least 1.", by simp [h1, h2]⟩
    · have h3 : limit < q.num := by tauto
      exact ⟨"Max results cannot exceed the limit.", by simp [h1, h2, h3]⟩
  · exact ⟨"Max results must be an integer.", by simp [h1]⟩

/-- A string that extends the response-error prefix is never the fixed
no-response message (their first characters differ). -/
theorem respMsg_ne_noResponseMsg (s : String) :
    "Ollama API responded with status " ++ s ≠
      "No response received from Ollama API." := by
  intro h
  obtain ⟨l⟩ := s
  have h2 : ("Ollama API responded with status " ++ String.mk l).data.head? =
      ("No response received from Ollama API." : String).data.head? := by rw [h]
  have h3 : some 'O' = some 'N' := h2
  simp at h3

/-- A non-empty string has positive length. -/
theorem length_pos_of_ne_empty (s : String) (h : s ≠ "") : 1 ≤ s.length := by
  obtain ⟨l⟩ := s
  cases l with
  | nil => exact absurd rfl h
  | cons a t => simp [String.length]

/-! ## Claims -/

/-- C1: every `web_search` invocation whose `max_results` is a non-integer
number or an integer outside [1,20] is rejected with a validation error
before any outbound POST (the POST count is 0), in both variants of
`tools.ts`; when `max_results` is absent (and the query is valid) the parsed
payload — the object `postToOllama` sends upstream — carries
`max_results = 5`. -/
theorem c1_webSearch_max_results_validation :
    (∀ (inp : WebSearchInput) (q : ℚ)
        (upstream : WebSearchPayload → UpstreamResult SearchRespData),
        inp.max_results = some q → q.den ≠ 1 ∨ q.num < 1 ∨ 20 < q.num →
        ∃ m, webSearch_v0 inp upstream = (.error (.zod m), 0)) ∧
    (∀ (γ : Type) (inp : WebSearchInput) (q : ℚ)
        (upstream : WebSearchPayload → UpstreamResult γ),
        inp.max_results = some q → q.den ≠ 1 ∨ q.num < 1 ∨ 20 < q.num →
        ∃ m, webSearch_v1 inp upstream = (.error (.zod m), 0)) ∧
    (∀ inp : WebSearchInput, inp.max_results = none → jsTrim inp.query ≠ "" →
        webSearchParse_v0 inp = .ok ⟨jsTrim inp.query, 5⟩) ∧
    (∀ inp : WebSearchInput, inp.max_results = none → inp.query ≠ "" →
        webSearchParse_v1 inp = .ok ⟨inp.query, 5⟩) := by
  refine ⟨?_, ?_, ?_, ?_⟩
  · intro inp q upstream hq hbad
    have hbad0 : q.den ≠ 1 ∨ q.num < 1 ∨ MAX_RESULTS_LIMIT_v0 < q.num := by
      rcases hbad with h | h | h
      · exact .inl h
      · exact .inr (.inl h)
      · refine .inr (.inr ?_)
        unfold MAX_RESULTS_LIMIT_v0
        omega
    obtain ⟨m, hm⟩ := parseMaxResultsField_bad MAX_RESULTS_LIMIT_v0 q hbad0
    by_cases hquery : (jsTrim inp.query).length < 1
    · exact ⟨"Query must not be empty.",
        by simp [webSearch_v0, postToOllama_v0, webSearchParse_v0, hquery]⟩
    · exact ⟨m,
        by simp [webSearch_v0, postToOllama_v0, webSearchParse_v0, hquery, hq, hm]⟩
  · intro γ inp q upstream hq hbad
    have hbad1 : q.den ≠ 1 ∨ q.num < 1 ∨ MAX_RESULTS_LIMIT_v1 < q.num := by
      rcases hbad with h | h | h
      · exact .inl h
      · exact .inr (.inl h)
      · exact .inr (.inr h)
    obtain ⟨m, hm⟩ := parseMaxResultsField_bad MAX_RESULTS_LIMIT_v1 q hbad1
    by_cases hquery : inp.query.length < 1
    · exact ⟨"Query must not be empty.",
        by simp [webSearch_v1, postToOllama_v1, webSearchParse_v1, hquery]⟩
    · exact ⟨m,
        by simp [webSearch_v1, postToOllama_v1, webSearchParse_v1, hquery, hq, hm]⟩
  · intro inp hnone hq
    have hl : ¬ (jsTrim inp.query).length < 1 := by
      have := length_pos_of_ne_empty (jsTrim inp.query) hq
      omega
    simp [webSearchParse_v0, hnone, hl, parseMaxResultsField, MAX_RESULTS_DEFAULT]
  · intro inp hnone hq
    have hl : ¬ inp.query.length < 1 := by
      have := length_pos_of_ne_empty inp.query hq
      omega
    simp [webSearchParse_v1, hnone, hl, parseMaxResultsField, MAX_RESULTS_DEFAULT]

/-- C1 witness: `max_results = 25` is rejected with no POST in the strict
variant, and an absent `max_results` parses to the default 5. -/
theorem c1_witness :
    ((25 : ℚ).den ≠ 1 ∨ (25 : ℚ).num < 1 ∨ 20 < (25 : ℚ).num) ∧
    (∃ m, webSearch_v0 ⟨"hi", some 25⟩ (fun _ => .otherErr none) =
      (.error (.zod m), 0)) ∧
    webSearchParse_v0 ⟨"hi", none⟩ = .ok ⟨"hi", 5⟩ :=
  ⟨by decide,
   c1_webSearch_max_results_validation.1 ⟨"hi", some 25⟩ 25
     (fun _ => .otherErr none) rfl (by decide),
   c1_webSearch_max_results_validation.2.2.1 ⟨"hi", none⟩ rfl (by decide)⟩

/-- C3 counterexample: the repository's pass-through variant of `tools.ts`
(part_001) validates the raw `url` with `z.string().url()` and performs no
scheme coercion, so `"example.com/page"` is rejected there rather than
accepted as `"https://example.com/page"`; only the strict variant (part_000)
implements the claimed coercion. -/
theorem c3_counterexample :
    webFetchParse_v1 isValidHttpUrl "example.com/page" =
      .error "URL must be a valid URL." ∧
    webFetchParse_v0 isValidHttpUrl "example.com/page" =
      .ok "https://example.com/page" := by
  constructor <;> rfl

/-- C3 (amended to the strict variant, part_000): for every URL-validity
predicate and every non-empty `url` string whose trimmed form lacks an
`http://`/`https://` scheme, `webFetchPayloadSchema` prefixes `https://` to
the trimmed string before the URL validation step, accepting exactly when the
coerced string parses as a URL and rejecting otherwise. -/
theorem c3_amended_url_coercion :
    ∀ (isValidURL : String → Bool) (url : String), url ≠ "" →
      hasHttpScheme (jsTrim url) = false →
      webFetchParse_v0 isValidURL url =
        if isValidURL ("https://" ++ jsTrim url) then .ok ("https://" ++ jsTrim url)
        else .error "URL must be a valid URL." := by
  intro iv url hne hscheme
  have hl : ¬ url.length < 1 := by
    have := length_pos_of_ne_empty url hne
    omega
  simp [webFetchParse_v0, hl, hscheme]

/-- C3 witness: `"example.com/page"` is coerced to
`"https://example.com/page"` and accepted under the concrete URL checker. -/
theorem c3_witness :
    ("example.com/page" : String) ≠ "" ∧
    hasHttpScheme (jsTrim "example.com/page") = false ∧
    webFetchParse_v0 isValidHttpUrl "example.com/page" =
      (if isValidHttpUrl ("https://" ++ jsTrim "example.com/page")
       then .ok ("https://" ++ jsTrim "example.com/page")
       else .error "URL must be a valid URL.") :=
  ⟨by decide, by decide,
   c3_amended_url_coercion isValidHttpUrl "example.com/page" (by decide) (by decide)⟩

/-- C4 counterexample: in the pass-through variant (part_001) the query
schema is `z.string().min(1)` with no trim, so the whitespace-only query
`" "` passes validation and one upstream POST is issued — the claim's
"rejected with a validation error and no upstream call" fails there. -/
theorem c4_counterexample :
    webSearchParse_v1 ⟨" ", none⟩ = .ok ⟨" ", 5⟩ ∧
    webSearch_v1 ⟨" ", none⟩ (fun _ => UpstreamResult.success ()) =
      (.ok (), 1) := by
  constructor <;> rfl

/-- C4 (amended): in the strict variant (part_000) every query whose trimmed
form is empty — so the empty and all whitespace-only queries — is rejected
with a validation error and no POST is made; in the pass-through variant
(part_001) only the empty query is rejected (whitespace-only queries pass,
as the counterexample shows). -/
theorem c4_amended_query_validation :
    (∀ (inp : WebSearchInput)
        (upstream : WebSearchPayload → UpstreamResult SearchRespData),
        jsTrim inp.query = "" →
        webSearch_v0 inp upstream = (.error (.zod "Query must not be empty."), 0)) ∧
    (∀ (γ : Type) (inp : WebSearchInput)
        (upstream : WebSearchPayload → UpstreamResult γ),
        inp.query = "" →
        webSearch_v1 inp upstream = (.error (.zod "Query must not be empty."), 0)) := by
  constructor
  · intro inp upstream h
    have hl : (jsTrim inp.query).length < 1 := by
      rw [h]
      decide
    simp [webSearch_v0, postToOllama_v0, webSearchParse_v0, hl]
  · intro γ inp upstream h
    have hl : inp.query.length < 1 := by
      rw [h]
      decide
    simp [webSearch_v1, postToOllama_v1, webSearchParse_v1, hl]

/-- C4 witness: the whitespace-only query `" "` is rejected with no POST by
the strict variant, and the empty query by the pass-through variant. -/
theorem c4_witness :
    jsTrim " " = "" ∧
    webSearch_v0 ⟨" ", none⟩ (fun _ => .otherErr none) =
      (.error (.zod "Query must not be empty."), 0) ∧
    webSearch_v1 ⟨"", none⟩ (fun _ => UpstreamResult.otherErr (γ := Unit) none) =
      (.error (.zod "Query must not be empty."), 0) :=
  ⟨by decide,
   c4_amended_query_validation.1 ⟨" ", none⟩ (fun _ => .otherErr none) (by decide),
   c4_amended_query_validation.2 Unit ⟨"", none⟩ (fun _ => .otherErr none) rfl⟩

/-- C5: `formatAxiosError` classifies every upstream failure into exactly one
of three cases — a response error keeps the status and a message containing
the response body, a no-response failure carries no status and the fixed
message, any other failure carries no status and the original message — and
no response-error message ever equals the no-response message. -/
theorem c5_upstream_error_classification :
    (∀ (e : AxiosErrorM) (st : Int) (d : String), e.response = some (st, d) →
      formatAxiosError e =
        ⟨"Ollama API responded with status " ++ toString st ++ ": " ++ d,
          some st⟩) ∧
    (∀ e : AxiosErrorM, e.response = none → e.hasRequest = true →
      formatAxiosError e = ⟨"No response received from Ollama API.", none⟩) ∧
    (∀ (e : AxiosErrorM) (m : String), e.response = none → e.hasRequest = false →
      e.message = some m → formatAxiosError e = ⟨m, none⟩) ∧
    (∀ (st : Int) (d : String),
      "Ollama API responded with status " ++ toString st ++ ": " ++ d ≠
        "No response received from Ollama API.") := by
  refine ⟨?_, ?_, ?_, ?_⟩
  · intro e st d h
    simp [formatAxiosError, h]
  · intro e h hr
    simp [formatAxiosError, h, hr]
  · intro e m h hr hm
    simp [formatAxiosError, h, hr, hm]
  · intro st d hEq
    apply respMsg_ne_noResponseMsg (toString st ++ (": " ++ d))
    rw [← String.append_assoc, ← String.append_assoc]
    exact hEq

/-- C5 witness: the three classifications at concrete errors. -/
theorem c5_witness :
    formatAxiosError ⟨some (503, "overloaded"), true, none⟩ =
      ⟨"Ollama API responded with status " ++ toString (503 : Int) ++ ": " ++
        "overloaded", some 503⟩ ∧
    formatAxiosError ⟨none, true, none⟩ =
      ⟨"No response received from Ollama API.", none⟩ ∧
    formatAxiosError ⟨none, false, some "boom"⟩ = ⟨"boom", none⟩ :=
  ⟨c5_upstream_error_classification.1 ⟨some (503, "overloaded"), true, none⟩
     503 "overloaded" rfl,
   c5_upstream_error_classification.2.1 ⟨none, true, none⟩ rfl rfl,
   c5_upstream_error_classification.2.2.1 ⟨none, false, some "boom"⟩ "boom"
     rfl rfl rfl⟩

/-- A string of positive length is non-empty. -/
theorem ne_empty_of_length_pos (s : String) (h : 1 ≤ s.length) : s ≠ "" := by
  intro he
  subst he
  exact absurd h (by decide)

/-- The POST count an invocation should make, given its payload-validation
outcome: one POST when the payload validated, none otherwise. -/
def postCountOf {σ : Type} : Except String σ → Nat
  | .ok _ => 1
  | .error _ => 0

/-- The POST count of `postToOllama` (strict variant) is 1 exactly when the
payload validates, 0 otherwise. -/
theorem postToOllama_v0_count {α β γ δ : Type} (ps : α → Except String β)
    (rs : γ → Except String δ) (payload : α) (upstream : β → UpstreamResult γ) :
    (postToOllama_v0 ps rs payload upstream).2 = postCountOf (ps payload) := by
  unfold postToOllama_v0 postCountOf
  cases hp : ps payload with
  | error m => simp
  | ok p =>
    cases h2 : upstream p with
    | success data => cases h3 : rs data <;> simp [h2, h3]
    | axiosErr e => simp [h2]
    | otherErr m => simp [h2]

/-- The POST count of `postToOllama` (pass-through variant) is 1 exactly when
the payload validates, 0 otherwise. -/
theorem postToOllama_v1_count {α β γ : Type} (ps : α → Except String β)
    (payload : α) (upstream : β → UpstreamResult γ) :
    (postToOllama_v1 ps payload upstream).2 = postCountOf (ps payload) := by
  unfold postToOllama_v1 postCountOf
  cases hp : ps payload with
  | error m => simp
  | ok p => cases h2 : upstream p <;> simp [h2]

/-- C9: every `webSearch`/`webFetch` invocation, in both variants, issues at
most one upstream POST — exactly one when the payload validates and none when
validation fails — and a failing upstream call makes the single attempt
surface its error immediately, with no retry (the count stays 1). -/
theorem c9_at_most_one_post :
    (∀ (inp : WebSearchInput)
        (upstream : WebSearchPayload → UpstreamResult SearchRespData),
        (webSearch_v0 inp upstream).2 = postCountOf (webSearchParse_v0 inp)) ∧
    (∀ (iv : String → Bool) (url : String)
        (upstream : String → UpstreamResult FetchRespData),
        (webFetch_v0 iv url upstream).2 = postCountOf (webFetchParse_v0 iv url)) ∧
    (∀ (γ : Type) (inp : WebSearchInput)
        (upstream : WebSearchPayload → UpstreamResult γ),
        (webSearch_v1 inp upstream).2 = postCountOf (webSearchParse_v1 inp)) ∧
    (∀ (γ : Type) (iv : String → Bool) (url : String)
        (upstream : String → UpstreamResult γ),
        (webFetch_v1 iv url upstream).2 = postCountOf (webFetchParse_v1 iv url)) ∧
    (∀ (α β γ δ : Type) (ps : α → Except String β) (rs : γ → Except String δ)
        (payload : α) (upstream : β → UpstreamResult γ) (p : β)
        (e : AxiosErrorM),
        ps payload = .ok p → upstream p = .axiosErr e →
        postToOllama_v0 ps rs payload upstream =
          (.error (.ollama (formatAxiosError e)), 1)) ∧
    (∀ (α β γ : Type) (ps : α → Except String β) (payload : α)
        (upstream : β → UpstreamResult γ) (p : β) (e : AxiosErrorM),
        ps payload = .ok p → upstream p = .axiosErr e →
        postToOllama_v1 ps payload upstream =
          (.error (.ollama (formatAxiosError e)), 1)) := by
  refine ⟨?_, ?_, ?_, ?_, ?_, ?_⟩
  · intro inp upstream
    unfold webSearch_v0
    exact postToOllama_v0_count webSearchParse_v0 webSearchRespParse_v0 inp upstream
  · intro iv url upstream
    unfold webFetch_v0
    exact postToOllama_v0_count (webFetchParse_v0 iv) webFetchRespParse_v0 url upstream
  · intro γ inp upstream
    unfold webSearch_v1
    exact postToOllama_v1_count webSearchParse_v1 inp upstream
  · intro γ iv url upstream
    unfold webFetch_v1
    exact postToOllama_v1_count (webFetchParse_v1 iv) url upstream
  · intro α β γ δ ps rs payload upstream p e hp hu
    simp [postToOllama_v0, hp, hu]
  · intro α β γ ps payload upstream p e hp hu
    simp [postToOllama_v1, hp, hu]

/-- C9 witness: a valid search with an upstream network failure makes exactly
one POST and surfaces the no-response error; an invalid one makes none. -/
theorem c9_witness :
    webSearchParse_v0 ⟨"hi", none⟩ = .ok ⟨"hi", 5⟩ ∧
    (fun _ : WebSearchPayload =>
        UpstreamResult.axiosErr (γ := SearchRespData) ⟨none, true, none⟩) ⟨"hi", 5⟩ =
      .axiosErr ⟨none, true, none⟩ ∧
    postToOllama_v0 webSearchParse_v0 webSearchRespParse_v0 ⟨"hi", none⟩
        (fun _ => .axiosErr ⟨none, true, none⟩) =
      (.error (.ollama (formatAxiosError ⟨none, true, none⟩)), 1) ∧
    (webSearch_v0 ⟨" ", none⟩ (fun _ => .otherErr none)).2 =
      postCountOf (webSearchParse_v0 ⟨" ", none⟩) :=
  ⟨rfl, rfl,
   c9_at_most_one_post.2.2.2.2.1 WebSearchInput WebSearchPayload SearchRespData
     (List WebSearchResult) webSearchParse_v0 webSearchRespParse_v0 ⟨"hi", none⟩
     (fun _ => .axiosErr ⟨none, true, none⟩) ⟨"hi", 5⟩ ⟨none, true, none⟩ rfl rfl,
   c9_at_most_one_post.1 ⟨" ", none⟩ (fun _ => .otherErr none)⟩

/-- C10: in the strict variant, every accepted `web_fetch` upstream body
yields a value whose `title` is the trimmed upstream title when a string and
`""` when null/undefined/absent, whose `links` is the upstream array when
present and `[]` when null/undefined/absent, and whose `content` is
non-empty; a body with missing or empty `content` is rejected and surfaced
as an `OllamaApiError`, never returned. -/
theorem c10_fetch_response_shape :
    (∀ (d : FetchRespData) (r : WebFetchResponse),
        webFetchRespParse_v0 d = .ok r →
        r.title = (match d.title with | .str s => jsTrim s | _ => "") ∧
        r.links = (match d.links with | .arr xs => xs | _ => []) ∧
        r.content ≠ "" ∧ d.content = some r.content) ∧
    (∀ (iv : String → Bool) (url : String)
        (upstream : String → UpstreamResult FetchRespData) (p : String)
        (d : FetchRespData),
        webFetchParse_v0 iv url = .ok p → upstream p = .success d →
        (d.content = none ∨ d.content = some "") →
        ∃ m, webFetch_v0 iv url upstream = (.error (.ollama ⟨m, none⟩), 1)) := by
  constructor
  · intro d r h
    obtain ⟨dt, dc, dl⟩ := d
    cases dc with
    | none => simp [webFetchRespParse_v0] at h
    | some c =>
      by_cases hl : c.length < 1
      · simp [webFetchRespParse_v0, hl] at h
      · have hc : c ≠ "" := ne_empty_of_length_pos c (by omega)
        cases dl with
        | arr xs =>
          by_cases hall : xs.all (fun x => 1 ≤ x.length)
          · simp [webFetchRespParse_v0, hl, hall] at h
            subst h
            cases dt <;> exact ⟨rfl, rfl, hc, rfl⟩
          · simp [webFetchRespParse_v0, hl, hall] at h
        | absent =>
          simp [webFetchRespParse_v0, hl] at h
          subst h
          cases dt <;> exact ⟨rfl, rfl, hc, rfl⟩
        | null =>
          simp [webFetchRespParse_v0, hl] at h
          subst h
          cases dt <;> exact ⟨rfl, rfl, hc, rfl⟩
  · intro iv url upstream p d hp hu hd
    rcases hd with hd | hd
    · exact ⟨"Required",
        by simp [webFetch_v0, postToOllama_v0, hp, hu, webFetchRespParse_v0, hd]⟩
    · exact ⟨"Response content must not be empty.",
        by simp [webFetch_v0, postToOllama_v0, hp, hu, webFetchRespParse_v0, hd]⟩

/-- C10 witness: a body with null title, missing links and non-empty content
is accepted with `title = ""` and `links = []`; a body with empty content is
rejected and surfaced as an upstream error. -/
theorem c10_witness :
    webFetchRespParse_v0 ⟨.null, some "text", .absent⟩ = .ok ⟨"", "text", []⟩ ∧
    (⟨"", "text", []⟩ : WebFetchResponse).title = "" ∧
    webFetchParse_v0 isValidHttpUrl "https://a.io" = .ok "https://a.io" ∧
    (∃ m, webFetch_v0 isValidHttpUrl "https://a.io"
        (fun _ => .success ⟨.null, some "", .absent⟩) =
      (.error (.ollama ⟨m, none⟩), 1)) :=
  ⟨rfl,
   (c10_fetch_response_shape.1 ⟨.null, some "text", .absent⟩ ⟨"", "text", []⟩ rfl).1,
   rfl,
   c10_fetch_response_shape.2 isValidHttpUrl "https://a.io"
     (fun _ => .success ⟨.null, some "", .absent⟩) "https://a.io"
     ⟨.null, some "", .absent⟩ rfl rfl (.inr rfl)⟩

/-- C6: with auth enabled, a missing or non-`Bearer ` `Authorization` header
is rejected 401 with RPC code -32001 and `id: null`, and a mismatched bearer
token 403 with code -32002 and `id: null`, in both cases before any session
logic and with the state unchanged; with auth disabled the gate passes every
request. -/
theorem c6_auth_gate :
    (∀ (cfg : ServerConfig) (s : ServerState) (req : HttpRequest),
        cfg.authEnabled = true →
        (req.authHeader = none ∨
          ∃ h, req.authHeader = some h ∧ strStartsWith h "Bearer " = false) →
        handleRequest cfg s req =
          (.rejected ⟨401, -32001, "Unauthorized: Missing Bearer token", none⟩, s)) ∧
    (∀ (cfg : ServerConfig) (s : ServerState) (req : HttpRequest) (h : String),
        cfg.authEnabled = true → req.authHeader = some h →
        strStartsWith h "Bearer " = true → strDrop h 7 ≠ cfg.authToken →
        handleRequest cfg s req =
          (.rejected ⟨403, -32002, "Forbidden: Invalid token", none⟩, s)) ∧
    (∀ (cfg : ServerConfig) (a : Option String),
        cfg.authEnabled = false → authGate cfg a = none) := by
  refine ⟨?_, ?_, ?_⟩
  · intro cfg s req hen hbad
    rcases hbad with hnone | ⟨h, hsome, hpre⟩
    · simp [handleRequest, authGate, hen, hnone]
    · simp [handleRequest, authGate, hen, hsome, hpre]
  · intro cfg s req h hen hsome hpre htok
    simp [handleRequest, authGate, hen, hsome, hpre, htok]
  · intro cfg a hdis
    simp [authGate, hdis]

/-- C6 witness: the three gate outcomes at concrete requests. -/
theorem c6_witness :
    handleRequest ⟨true, "secret"⟩ initialServerState ⟨.post, none, none, true⟩ =
      (.rejected ⟨401, -32001, "Unauthorized: Missing Bearer token", none⟩,
        initialServerState) ∧
    handleRequest ⟨true, "secret"⟩ initialServerState
        ⟨.get, some "Bearer wrong", none, false⟩ =
      (.rejected ⟨403, -32002, "Forbidden: Invalid token", none⟩,
        initialServerState) ∧
    authGate ⟨false, "secret"⟩ none = none :=
  ⟨c6_auth_gate.1 ⟨true, "secret"⟩ initialServerState ⟨.post, none, none, true⟩
     rfl (.inl rfl),
   c6_auth_gate.2.1 ⟨true, "secret"⟩ initialServerState
     ⟨.get, some "Bearer wrong", none, false⟩ "Bearer wrong" rfl rfl (by decide)
     (by decide),
   c6_auth_gate.2.2 ⟨false, "secret"⟩ none rfl⟩

/-- C7: a POST that passes the auth gate, carries no known session identifier
and whose body is not an initialize request is rejected 400 with RPC code
-32000 and `id: null`, with the session map unchanged. -/
theorem c7_post_no_session_not_initialize :
    ∀ (cfg : ServerConfig) (s : ServerState) (req : HttpRequest),
      authGate cfg req.authHeader = none → req.method = .post →
      req.isInitReq = false →
      (req.sessionId = none ∨
        ∃ id, req.sessionId = some id ∧ lookupTransport s.transports id = none) →
      handleRequest cfg s req =
        (.rejected ⟨400, -32000, "Bad Request: No valid session ID provided", none⟩,
          s) := by
  intro cfg s req hauth hm hinit hsid
  rcases hsid with hnone | ⟨id, hsome, hlook⟩
  · simp [handleRequest, hauth, hm, handlePost, hnone, hinit]
  · simp [handleRequest, hauth, hm, handlePost, hsome, hlook]

/-- C7 witness: a sessionless non-initialize POST on the empty session map. -/
theorem c7_witness :
    handleRequest ⟨false, "t"⟩ initialServerState ⟨.post, none, none, false⟩ =
      (.rejected ⟨400, -32000, "Bad Request: No valid session ID provided", none⟩,
        initialServerState) :=
  c7_post_no_session_not_initialize ⟨false, "t"⟩ initialServerState
    ⟨.post, none, none, false⟩ rfl rfl rfl (.inl rfl)

/-- C8: a GET or DELETE that passes the auth gate and whose `mcp-session-id`
is missing or does not resolve to a live session is rejected 400 with RPC
code -32000 and `id: null`, with the state (hence every transport)
untouched. -/
theorem c8_get_delete_unknown_session :
    ∀ (cfg : ServerConfig) (s : ServerState) (req : HttpRequest),
      authGate cfg req.authHeader = none →
      (req.method = .get ∨ req.method = .delete) →
      (req.sessionId = none ∨
        ∃ id, req.sessionId = some id ∧ lookupTransport s.transports id = none) →
      handleRequest cfg s req =
        (.rejected ⟨400, -32000, "Invalid or missing session ID", none⟩, s) := by
  intro cfg s req hauth hm hsid
  rcases hm with hm | hm <;> rcases hsid with hnone | ⟨id, hsome, hlook⟩
  · simp [handleRequest, hauth, hm, handleGet, hnone]
  · simp [handleRequest, hauth, hm, handleGet, hsome, hlook]
  · simp [handleRequest, hauth, hm, handleDelete, hnone]
  · simp [handleRequest, hauth, hm, handleDelete, hsome, hlook]

/-- C8 witness: a GET with no session header and a DELETE with an unknown
session identifier on the empty map. -/
theorem c8_witness :
    handleRequest ⟨false, "t"⟩ initialServerState ⟨.get, none, none, false⟩ =
      (.rejected ⟨400, -32000, "Invalid or missing session ID", none⟩,
        initialServerState) ∧
    handleRequest ⟨false, "t"⟩ initialServerState ⟨.delete, none, some 7, false⟩ =
      (.rejected ⟨400, -32000, "Invalid or missing session ID", none⟩,
        initialServerState) :=
  ⟨c8_get_delete_unknown_session ⟨false, "t"⟩ initialServerState
     ⟨.get, none, none, false⟩ rfl (.inl rfl) (.inl rfl),
   c8_get_delete_unknown_session ⟨false, "t"⟩ initialServerState
     ⟨.delete, none, some 7, false⟩ rfl (.inr rfl) (.inr ⟨7, rfl, rfl⟩)⟩

/-! ## Session-map invariant lemmas (towards C2) -/

/-- Lookup on a cons cell of the session map. -/
theorem lookupTransport_cons (k v : Nat) (m : List (Nat × Nat)) (id : Nat) :
    lookupTransport ((k, v) :: m) id =
      if k = id then some v else lookupTransport m id := by
  by_cases h : k = id <;> simp [lookupTransport, List.find?, h]

/-- A lookup misses exactly when the identifier is not among the keys. -/
theorem lookupTransport_eq_none_iff (m : List (Nat × Nat)) (id : Nat) :
    lookupTransport m id = none ↔ id ∉ m.map Prod.fst := by
  induction m with
  | nil => simp [lookupTransport]
  | cons p t ih =>
    obtain ⟨k, v⟩ := p
    rw [lookupTransport_cons]
    by_cases h : k = id
    · subst h
      simp
    · rw [if_neg h, ih]
      simp only [List.map_cons, List.mem_cons]
      constructor
      · intro hn hor
        rcases hor with hek | hm
        · exact h hek.symm
        · exact hn hm
      · intro hn hm
        exact hn (Or.inr hm)

/-- Deleting an identifier from the session map makes its lookup miss. -/
theorem lookupTransport_filter_self (m : List (Nat × Nat)) (id : Nat) :
    lookupTransport (m.filter (fun p => p.1 ≠ id)) id = none := by
  induction m with
  | nil => simp [lookupTransport]
  | cons p t ih =>
    obtain ⟨k, v⟩ := p
    by_cases h : k = id
    · subst h
      simpa [List.filter_cons] using ih
    · simp [List.filter_cons, h, lookupTransport_cons]
      simpa using ih

/-- Deleting an identifier preserves the misses of every lookup. -/
theorem lookupTransport_filter_none (m : List (Nat × Nat)) (j id : Nat)
    (h : lookupTransport m j = none) :
    lookupTransport (m.filter (fun p => p.1 ≠ id)) j = none := by
  rw [lookupTransport_eq_none_iff] at h ⊢
  intro hmem
  exact h (List.map_subset Prod.fst (List.filter_sublist m).subset hmem)

/-- The keys of the filtered session map stay duplicate-free. -/
theorem nodup_keys_filter (m : List (Nat × Nat)) (id : Nat)
    (h : (m.map Prod.fst).Nodup) :
    ((m.filter (fun p => p.1 ≠ id)).map Prod.fst).Nodup :=
  h.sublist ((List.filter_sublist m).map Prod.fst)

/-- Keys of the filtered map are keys of the map. -/
theorem mem_keys_filter {m : List (Nat × Nat)} {id k : Nat}
    (h : k ∈ (m.filter (fun p => p.1 ≠ id)).map Prod.fst) :
    k ∈ m.map Prod.fst :=
  List.map_subset Prod.fst (List.filter_sublist m).subset h

/-- Closing a live session preserves the invariant. -/
theorem sessionInv_close (s : ServerState) (id t : Nat)
    (h : SessionInv s) (hlook : lookupTransport s.transports id = some t) :
    SessionInv ⟨s.transports.filter (fun p => p.1 ≠ id), s.nextSessionId,
      s.nextTransport, id :: s.closedIds⟩ := by
  obtain ⟨hnd, hcl, hlt, hclt⟩ := h
  have hidmem : id ∈ s.transports.map Prod.fst := by
    by_contra hno
    rw [← lookupTransport_eq_none_iff] at hno
    rw [hno] at hlook
    exact Option.noConfusion hlook
  refine ⟨nodup_keys_filter _ _ hnd, ?_, ?_, ?_⟩
  · intro j hj
    rcases List.mem_cons.mp hj with hj | hj
    · subst hj
      exact lookupTransport_filter_self _ _
    · exact lookupTransport_filter_none _ _ _ (hcl j hj)
  · intro j hj
    exact hlt j (mem_keys_filter hj)
  · intro j hj
    rcases List.mem_cons.mp hj with hj | hj
    · subst hj
      exact hlt j hidmem
    · exact hclt j hj

/-- Creating a session under a fresh identifier preserves the invariant. -/
theorem sessionInv_create (s : ServerState) (h : SessionInv s) :
    SessionInv ⟨(s.nextSessionId, s.nextTransport) :: s.transports,
      s.nextSessionId + 1, s.nextTransport + 1, s.closedIds⟩ := by
  obtain ⟨hnd, hcl, hlt, hclt⟩ := h
  have hfresh : s.nextSessionId ∉ s.transports.map Prod.fst := by
    intro hmem
    exact absurd (hlt _ hmem) (lt_irrefl _)
  refine ⟨?_, ?_, ?_, ?_⟩
  · exact List.nodup_cons.mpr ⟨hfresh, hnd⟩
  · intro j hj
    rw [lookupTransport_cons]
    have hjlt := hclt j hj
    rw [if_neg (by omega)]
    exact hcl j hj
  · intro j hj
    show j < s.nextSessionId + 1
    have hj2 : j ∈ ((s.nextSessionId, s.nextTransport) :: s.transports).map
        Prod.fst := hj
    rw [List.map_cons] at hj2
    rcases List.mem_cons.mp hj2 with hj3 | hj3
    · omega
    · have := hlt j hj3
      omega
  · intro j hj
    show j < s.nextSessionId + 1
    have := hclt j hj
    omega

/-- One server step preserves the session-map invariant. -/
theorem sessionInv_step (cfg : ServerConfig) (s : ServerState) (e : ServerEvent)
    (h : SessionInv s) : SessionInv (stepServer cfg s e) := by
  cases e with
  | transportClosed id =>
    simp only [stepServer, closeTransport]
    split
    · exact h
    · exact sessionInv_close s id _ h (by assumption)
  | request req =>
    simp only [stepServer, handleRequest]
    split
    · exact h
    · cases req.method with
      | post =>
        simp only [handlePost]
        split
        · split
          · exact h
          · exact h
        · split
          · exact sessionInv_create s h
          · exact h
      | get =>
        simp only [handleGet]
        split
        · exact h
        · split
          · exact h
          · exact h
      | delete =>
        simp only [handleDelete]
        split
        · exact h
        · split
          · exact h
          · exact sessionInv_close s _ _ h (by assumption)

/-- A step never removes an identifier from the closed history. -/
theorem closedIds_mono_step (cfg : ServerConfig) (s : ServerState)
    (e : ServerEvent) : s.closedIds ⊆ (stepServer cfg s e).closedIds := by
  cases e with
  | transportClosed id =>
    simp only [stepServer, closeTransport]
    split
    · exact fun x hx => hx
    · exact fun x hx => List.mem_cons_of_mem _ hx
  | request req =>
    simp only [stepServer, handleRequest]
    split
    · exact fun x hx => hx
    · cases req.method with
      | post =>
        simp only [handlePost]
        split
        · split
          · exact fun x hx => hx
          · exact fun x hx => hx
        · split
          · exact fun x hx => hx
          · exact fun x hx => hx
      | get =>
        simp only [handleGet]
        split
        · exact fun x hx => hx
        · split
          · exact fun x hx => hx
          · exact fun x hx => hx
      | delete =>
        simp only [handleDelete]
        split
        · exact fun x hx => hx
        · split
          · exact fun x hx => hx
          · exact fun x hx => List.mem_cons_of_mem _ hx

/-- Every run from an invariant-holding state lands where the invariant
holds. -/
theorem sessionInv_run (cfg : ServerConfig) (s : ServerState)
    (evts : List ServerEvent) (h : SessionInv s) :
    SessionInv (runServer cfg s evts) := by
  induction evts generalizing s with
  | nil => exact h
  | cons e t ih => exact ih (stepServer cfg s e) (sessionInv_step cfg s e h)

/-- The closed history only grows along a run. -/
theorem closedIds_mono_run (cfg : ServerConfig) (s : ServerState)
    (evts : List ServerEvent) :
    s.closedIds ⊆ (runServer cfg s evts).closedIds := by
  induction evts generalizing s with
  | nil => exact fun x hx => hx
  | cons e t ih =>
    exact fun x hx => ih (stepServer cfg s e) (closedIds_mono_step cfg s e hx)

/-- The empty session map satisfies the invariant. -/
theorem sessionInv_initial : SessionInv initialServerState := by
  refine ⟨List.nodup_nil, ?_, ?_, ?_⟩ <;> intro j hj <;>
    simp [initialServerState] at hj

/-- C2: in every state reachable by the HTTP session manager from startup,
the live map holds at most one transport per session identifier (its keys are
duplicate-free), and a session identifier once closed — by DELETE or by
transport closure — is absent from the live map and never resolves to a live
transport in any later reachable state. -/
theorem c2_session_invariant :
    ∀ (cfg : ServerConfig) (evts : List ServerEvent),
      ((runServer cfg initialServerState evts).transports.map Prod.fst).Nodup ∧
      ∀ id, id ∈ (runServer cfg initialServerState evts).closedIds →
        ∀ more : List ServerEvent,
          lookupTransport
            (runServer cfg (runServer cfg initialServerState evts)
              more).transports id = none := by
  intro cfg evts
  have h1 : SessionInv (runServer cfg initialServerState evts) :=
    sessionInv_run cfg initialServerState evts sessionInv_initial
  refine ⟨h1.1, ?_⟩
  intro id hid more
  have h2 : SessionInv (runServer cfg (runServer cfg initialServerState evts) more) :=
    sessionInv_run cfg _ more h1
  have h3 : id ∈ (runServer cfg (runServer cfg initialServerState evts)
      more).closedIds :=
    closedIds_mono_run cfg _ more hid
  exact h2.2.1 id h3

/-- C2 witness: initialize then DELETE closes session 0; after a further
initialize, identifier 0 still resolves to no live transport. -/
theorem c2_witness :
    0 ∈ (runServer ⟨false, "t"⟩ initialServerState
        [.request ⟨.post, none, none, true⟩,
         .request ⟨.delete, none, some 0, false⟩]).closedIds ∧
    lookupTransport
      (runServer ⟨false, "t"⟩
        (runServer ⟨false, "t"⟩ initialServerState
          [.request ⟨.post, none, none, true⟩,
           .request ⟨.delete, none, some 0, false⟩])
        [.request ⟨.post, none, none, true⟩]).transports 0 = none :=
  ⟨by decide,
   (c2_session_invariant ⟨false, "t"⟩
       [.request ⟨.post, none, none, true⟩,
        .request ⟨.delete, none, some 0, false⟩]).2 0 (by decide)
     [.request ⟨.post, none, none, true⟩]⟩

end McpOllama
